import Mathlib

set_option maxHeartbeats 1000000
set_option linter.unusedVariables false

/-!
Shallow embedding of the Config component of displ_be (src/src/Config.hpp).
The source tree provides only the class declaration (Config.hpp); the member
function bodies live in a companion translation unit that is not part of the
tree, so each body is modelled from the specification where marked.
-/

/-- Exception class from src/src/Config.hpp lines 41-55: stores the message
string supplied at construction. -/
structure ConfigException where
  mMsg : String
deriving Repr, DecidableEq

/-- what() from Config.hpp line 51: returns the stored message. -/
def ConfigException.what (e : ConfigException) : String := e.mMsg

/-- Display modes, Config.hpp lines 68-72. -/
inductive DisplayMode where
  | DRM
  | WAYLAND
deriving Repr, DecidableEq

/-- Modelled from the spec: a per-guest override record inside an input
entry's domains list (spec section 3 and 6): a domName (empty string stands
for an absent/wildcard name), a devId and the resolved id. -/
structure DomainRecord where
  domName : String
  devId : Nat
  id : Int
deriving Repr, DecidableEq

/-- Modelled from the spec: one entry of an input-device section
(keyboards, pointers or touches): id, wayland flag, name, and an optional
domains override list, absent modelled as the empty list (spec section 3). -/
structure InputEntry where
  id : Int
  wayland : Bool
  name : String
  domains : List DomainRecord
deriving Repr, DecidableEq

/-- Modelled from the spec: a connector entry with its name (spec section 6). -/
structure Connector where
  name : String
deriving Repr, DecidableEq

/-- Modelled from the spec: the already-parsed settings document (spec
sections 3 and 6): the optional display.mode value and the four optional
top-level section lists, in document order. Config.cpp is absent from the
tree; the shape follows the expected top-level shape of spec section 6. -/
structure Document where
  displayModeKey : Option String
  connectors : Option (List Connector)
  keyboards : Option (List InputEntry)
  pointers : Option (List InputEntry)
  touches : Option (List InputEntry)
deriving Repr, DecidableEq

/-- The display.mode value selecting the Wayland compositor (spec section 6). -/
def cWaylandModeValue : String := "Wayland"

/-- Modelled from the spec: readDisplayMode (declared Config.hpp line 192):
DRM when the display section or its mode key is absent, WAYLAND exactly when
the mode key holds the Wayland value (spec sections 4.1 and 8). -/
def readDisplayMode (doc : Document) : DisplayMode :=
  match doc.displayModeKey with
  | none => DisplayMode.DRM
  | some m => if m = cWaylandModeValue then DisplayMode.WAYLAND else DisplayMode.DRM

/-- Modelled from the spec: readInputsCount (declared Config.hpp line 199):
the number of top-level entries of a section, zero when the section is
absent (spec section 3 invariant). Also used for the connectors count. -/
def readInputsCount {α : Type} (sec : Option (List α)) : Nat :=
  match sec with
  | none => 0
  | some l => l.length

/-- The Config object state: the loaded document plus the cached scalars,
Config.hpp lines 183-189. -/
structure Config where
  mConfig : Document
  mDisplayMode : DisplayMode
  mWlConnectorsCount : Nat
  mInputKeyboardsCount : Nat
  mInputPointersCount : Nat
  mInputTouchesCount : Nat
deriving Repr, DecidableEq

/-- Modelled from the spec: initCachedValues (declared Config.hpp line 191):
eagerly compute the display mode and the four counts from the document
(spec section 4.1). -/
def Config.ofDoc (doc : Document) : Config :=
  ⟨doc, readDisplayMode doc, readInputsCount doc.connectors,
   readInputsCount doc.keyboards, readInputsCount doc.pointers,
   readInputsCount doc.touches⟩

/-- Modelled from the spec: the constructor Config(fileName), Config.hpp
line 77. The outcome of the external settings-file library is the input:
either a human-readable load/parse/wrong-type failure message, or the
well-typed parsed document. On failure construction produces a
ConfigException carrying the message and no Config value exists; on success
the cached values are initialized eagerly (spec sections 4.1 and 7). -/
def Config.load (parsed : Except String Document) : Except ConfigException Config :=
  match parsed with
  | Except.error msg => Except.error (ConfigException.mk ("Config: " ++ msg))
  | Except.ok doc => Except.ok (Config.ofDoc doc)

/-- displayMode(), Config.hpp line 82. -/
def Config.displayMode (c : Config) : DisplayMode := c.mDisplayMode

/-- wlConnectorsCount(), Config.hpp line 87. -/
def Config.wlConnectorsCount (c : Config) : Nat := c.mWlConnectorsCount

/-- inputKeyboardsCount(), Config.hpp line 99. -/
def Config.inputKeyboardsCount (c : Config) : Nat := c.mInputKeyboardsCount

/-- inputPointersCount(), Config.hpp line 114. -/
def Config.inputPointersCount (c : Config) : Nat := c.mInputPointersCount

/-- inputTouchesCount(), Config.hpp line 129. -/
def Config.inputTouchesCount (c : Config) : Nat := c.mInputTouchesCount

/-- The connector list of the document, empty when the section is absent. -/
def Config.connectorList (c : Config) : List Connector := (c.mConfig.connectors).getD []

/-- The keyboards list of the document, empty when the section is absent. -/
def Config.keyboardList (c : Config) : List InputEntry := (c.mConfig.keyboards).getD []

/-- The pointers list of the document, empty when the section is absent. -/
def Config.pointerList (c : Config) : List InputEntry := (c.mConfig.pointers).getD []

/-- The touches list of the document, empty when the section is absent. -/
def Config.touchList (c : Config) : List InputEntry := (c.mConfig.touches).getD []

/-- Message of the IndexError-class failure (spec section 7). -/
def cIndexErrorMsg : String := "Config: index is out of range"

/-- Message of the NotFoundError-class failure of domConnectorName
(spec section 7). -/
def cNotFoundErrorMsg : String := "Config: connector not found"

/-- Modelled from the spec: wlConnector (Config.hpp line 94): the name of
the idx-th connector entry in document order; an IndexError-class
ConfigException when idx is outside the counted range (spec section 4.1). -/
def Config.wlConnector (c : Config) (idx : Int) : Except ConfigException String :=
  if h : 0 ≤ idx ∧ idx.toNat < c.connectorList.length then
    Except.ok (c.connectorList.get ⟨idx.toNat, h.2⟩).name
  else
    Except.error (ConfigException.mk cIndexErrorMsg)

/-- Modelled from the spec: readInputSection (declared Config.hpp lines
197-198): the (id, wayland, name) fields of the idx-th entry of the given
section in document order; an IndexError-class ConfigException when idx is
outside the counted range (spec sections 4.1 and 8). -/
def readInputSection (sec : Option (List InputEntry)) (idx : Int) :
    Except ConfigException (Int × Bool × String) :=
  if h : 0 ≤ idx ∧ idx.toNat < (sec.getD []).length then
    Except.ok (((sec.getD []).get ⟨idx.toNat, h.2⟩).id,
               ((sec.getD []).get ⟨idx.toNat, h.2⟩).wayland,
               ((sec.getD []).get ⟨idx.toNat, h.2⟩).name)
  else
    Except.error (ConfigException.mk cIndexErrorMsg)

/-- inputKeyboard, Config.hpp line 109, via readInputSection. -/
def Config.inputKeyboard (c : Config) (idx : Int) :
    Except ConfigException (Int × Bool × String) :=
  readInputSection c.mConfig.keyboards idx

/-- inputPointer, Config.hpp line 124, via readInputSection. -/
def Config.inputPointer (c : Config) (idx : Int) :
    Except ConfigException (Int × Bool × String) :=
  readInputSection c.mConfig.pointers idx

/-- inputTouch, Config.hpp line 139, via readInputSection. -/
def Config.inputTouch (c : Config) (idx : Int) :
    Except ConfigException (Int × Bool × String) :=
  readInputSection c.mConfig.touches idx

/-- Modelled from the spec: whether an override record matches a query:
the record's devId equals the query devId, and the record's domName equals
the query domName or is empty, empty acting as a wildcard matching any
guest name (spec section 4.1). -/
def recordMatches (domName : String) (devId : Nat) (r : DomainRecord) : Bool :=
  (r.domName = "" || r.domName = domName) && r.devId = devId

/-- Modelled from the spec: findSettingByDomain (declared Config.hpp lines
202-204): scan the top-level entries of the section in document order and,
within each entry, its domains override list in document order; the first
matching record wins regardless of wildcard or exact match (spec
sections 4.1 and 8). -/
def findSettingByDomain (sec : List InputEntry) (domName : String) (devId : Nat) :
    Option DomainRecord :=
  match sec with
  | [] => none
  | e :: es =>
    match e.domains.find? (recordMatches domName devId) with
    | some r => some r
    | none => findSettingByDomain es domName devId

/-- Modelled from the spec: readInputId (declared Config.hpp lines 200-201):
the configured id of the first matching override record, none ("not found",
boolean false in the interface) when no record of the whole section matches;
absence is a normal outcome, never an error (spec sections 4.1 and 7). -/
def readInputId (sec : Option (List InputEntry)) (domName : String) (devId : Nat) :
    Option Int :=
  (findSettingByDomain (sec.getD []) domName devId).map DomainRecord.id

/-- domKeyboardId, Config.hpp line 158, via readInputId on the keyboards
section. -/
def Config.domKeyboardId (c : Config) (domName : String) (devId : Nat) : Option Int :=
  readInputId c.mConfig.keyboards domName devId

/-- domPointerId, Config.hpp line 167, via readInputId on the pointers
section. -/
def Config.domPointerId (c : Config) (domName : String) (devId : Nat) : Option Int :=
  readInputId c.mConfig.pointers domName devId

/-- domTouchId, Config.hpp line 176, via readInputId on the touches
section. -/
def Config.domTouchId (c : Config) (domName : String) (devId : Nat) : Option Int :=
  readInputId c.mConfig.touches domName devId

/-- Modelled from the spec: domConnectorName (Config.hpp lines 148-149):
a guest's monitors occupy consecutive slots starting at an offset determined
by devId; the base connector index is that offset plus idx and indexes the
global connector list; a NotFoundError-class ConfigException when the
computed index is outside the configured connector count (spec section 4.1).
The exact offset rule is unspecified by the spec and is the parameter. -/
def Config.domConnectorName (c : Config) (offset : Nat → Nat)
    (domName : String) (devId : Nat) (idx : Int) : Except ConfigException String :=
  if h : 0 ≤ (offset devId : Int) + idx ∧
         ((offset devId : Int) + idx).toNat < c.connectorList.length then
    Except.ok (c.connectorList.get ⟨((offset devId : Int) + idx).toNat, h.2⟩).name
  else
    Except.error (ConfigException.mk cNotFoundErrorMsg)

/-- Helper: find? over an appended list takes the first hit of the left
part, else searches the right part. -/
theorem find_first_append {α : Type} (p : α → Bool) (l₁ l₂ : List α) :
    (l₁ ++ l₂).find? p =
      (match l₁.find? p with
       | some r => some r
       | none => l₂.find? p) := by
  induction l₁ with
  | nil => simp
  | cons a l ih =>
    by_cases h : p a
    · simp [h]
    · simp [h, ih]

/-- Helper: the nested document-order scan of findSettingByDomain equals the
first match over the concatenation, in document order, of all domains lists
of the section. -/
theorem findSettingByDomain_eq_find (sec : List InputEntry) (d : String) (v : Nat) :
    findSettingByDomain sec d v =
      (sec.flatMap InputEntry.domains).find? (recordMatches d v) := by
  induction sec with
  | nil => simp [findSettingByDomain]
  | cons e es ih =>
    simp only [findSettingByDomain, List.flatMap_cons, find_first_append, ih]
    cases e.domains.find? (recordMatches d v) <;> rfl

/-- A concrete sample document used by the witnesses: Wayland mode, two
connectors, one keyboard entry with two override records, one pointer
entry without overrides, and no touches section. -/
def sampleDoc : Document :=
  ⟨some "Wayland",
   some [⟨"conn0"⟩, ⟨"conn1"⟩],
   some [⟨0, true, "conn0", [⟨"vm1", 1, 5⟩, ⟨"", 1, 9⟩]⟩],
   some [⟨1, false, "input0", []⟩],
   none⟩

/-- A concrete document with every section absent, used by the witnesses. -/
def emptyDoc : Document :=
  ⟨none, none, none, none, none⟩

/-- C1: domKeyboardId, domPointerId and domTouchId scan the top-level
entries of their section in document order and, within each entry, the
domains override list in document order, and return the configured id of
the first record whose domName matches the query (empty record domName
matching any query) and whose devId equals the query devId: the result is
exactly the first match, in document order, over the concatenation of all
domains lists, so when several records match the first in document order
wins regardless of wildcard or exact domName match. -/
theorem domInputId_first_match_in_document_order
    (c : Config) (domName : String) (devId : Nat) :
    c.domKeyboardId domName devId =
      ((c.keyboardList.flatMap InputEntry.domains).find?
        (recordMatches domName devId)).map DomainRecord.id
  ∧ c.domPointerId domName devId =
      ((c.pointerList.flatMap InputEntry.domains).find?
        (recordMatches domName devId)).map DomainRecord.id
  ∧ c.domTouchId domName devId =
      ((c.touchList.flatMap InputEntry.domains).find?
        (recordMatches domName devId)).map DomainRecord.id := by
  refine ⟨?_, ?_, ?_⟩ <;>
    simp [Config.domKeyboardId, Config.domPointerId, Config.domTouchId,
          readInputId, findSettingByDomain_eq_find, Config.keyboardList,
          Config.pointerList, Config.touchList]

/-- Document-order precedence on the spec section 8 example: with overrides
[(domName vm1, devId 1, id 5), (domName empty, devId 1, id 9)] the query
(vm1, 1) returns 5: the exact match comes first in document order. -/
theorem order_stability_exact_first :
    (Config.ofDoc sampleDoc).domKeyboardId "vm1" 1 = some 5 := by decide

/-- Document-order precedence, wildcard first: with the same two records
swapped, the query (vm1, 1) returns the wildcard record's id 9: document
order, not specificity, determines precedence. -/
theorem order_stability_wildcard_first :
    (Config.ofDoc
      ⟨some "Wayland", none,
       some [⟨0, true, "conn0", [⟨"", 1, 9⟩, ⟨"vm1", 1, 5⟩]⟩],
       none, none⟩).domKeyboardId "vm1" 1 = some 9 := by decide

/-- C3: each counting accessor of a loaded document returns exactly the
number of top-level entries of its section, and 0, without error, when the
section is absent. -/
theorem counts_equal_section_lengths (doc : Document) :
    ((∀ l, doc.connectors = some l →
        (Config.ofDoc doc).wlConnectorsCount = l.length)
      ∧ (doc.connectors = none → (Config.ofDoc doc).wlConnectorsCount = 0))
  ∧ ((∀ l, doc.keyboards = some l →
        (Config.ofDoc doc).inputKeyboardsCount = l.length)
      ∧ (doc.keyboards = none → (Config.ofDoc doc).inputKeyboardsCount = 0))
  ∧ ((∀ l, doc.pointers = some l →
        (Config.ofDoc doc).inputPointersCount = l.length)
      ∧ (doc.pointers = none → (Config.ofDoc doc).inputPointersCount = 0))
  ∧ ((∀ l, doc.touches = some l →
        (Config.ofDoc doc).inputTouchesCount = l.length)
      ∧ (doc.touches = none → (Config.ofDoc doc).inputTouchesCount = 0)) := by
  refine ⟨⟨?_, ?_⟩, ⟨?_, ?_⟩, ⟨?_, ?_⟩, ⟨?_, ?_⟩⟩ <;>
    intro h <;>
    first
      | (intro heq
         simp [Config.ofDoc, Config.wlConnectorsCount, Config.inputKeyboardsCount,
               Config.inputPointersCount, Config.inputTouchesCount,
               readInputsCount, heq])
      | simp [Config.ofDoc, Config.wlConnectorsCount, Config.inputKeyboardsCount,
              Config.inputPointersCount, Config.inputTouchesCount,
              readInputsCount, h]

/-- Witness for C3 at the sample documents: present sections are counted
exactly, absent sections count 0. -/
theorem counts_equal_section_lengths_witness :
    (Config.ofDoc sampleDoc).wlConnectorsCount = 2
  ∧ (Config.ofDoc sampleDoc).inputTouchesCount = 0 :=
  ⟨(counts_equal_section_lengths sampleDoc).1.1 [⟨"conn0"⟩, ⟨"conn1"⟩] rfl,
   (counts_equal_section_lengths sampleDoc).2.2.2.2 rfl⟩

/-- Helper: readInputId returns none when no record of the section matches
the query. -/
theorem readInputId_eq_none (sec : Option (List InputEntry)) (d : String) (v : Nat)
    (h : ∀ e ∈ sec.getD [], ∀ r ∈ e.domains, recordMatches d v r = false) :
    readInputId sec d v = none := by
  have hfind :
      ((sec.getD []).flatMap InputEntry.domains).find? (recordMatches d v) = none := by
    rw [List.find?_eq_none]
    intro r hr
    obtain ⟨e, he, hre⟩ := List.mem_flatMap.mp hr
    simp [h e he r hre]
  simp only [readInputId, findSettingByDomain_eq_find, hfind]
  rfl

/-- C4: when no override record of the whole section matches the query,
domKeyboardId, domPointerId and domTouchId report not-found by returning
none (boolean false in the interface, the result left usable by the
caller); their return type has no error outcome, so they never fail in
that case. -/
theorem domInputId_no_match_is_not_found
    (c : Config) (domName : String) (devId : Nat) :
    ((∀ e ∈ c.keyboardList, ∀ r ∈ e.domains,
        recordMatches domName devId r = false) →
      c.domKeyboardId domName devId = none)
  ∧ ((∀ e ∈ c.pointerList, ∀ r ∈ e.domains,
        recordMatches domName devId r = false) →
      c.domPointerId domName devId = none)
  ∧ ((∀ e ∈ c.touchList, ∀ r ∈ e.domains,
        recordMatches domName devId r = false) →
      c.domTouchId domName devId = none) := by
  refine ⟨fun h => readInputId_eq_none _ _ _ h,
          fun h => readInputId_eq_none _ _ _ h,
          fun h => readInputId_eq_none _ _ _ h⟩

/-- Witness for C4: on the sample document the query (vm2, 3) matches no
record in any section and every resolver returns none. -/
theorem domInputId_no_match_witness :
    (Config.ofDoc sampleDoc).domKeyboardId "vm2" 3 = none
  ∧ (Config.ofDoc sampleDoc).domPointerId "vm2" 3 = none
  ∧ (Config.ofDoc sampleDoc).domTouchId "vm2" 3 = none :=
  ⟨(domInputId_no_match_is_not_found (Config.ofDoc sampleDoc) "vm2" 3).1
      (by decide),
   (domInputId_no_match_is_not_found (Config.ofDoc sampleDoc) "vm2" 3).2.1
      (by decide),
   (domInputId_no_match_is_not_found (Config.ofDoc sampleDoc) "vm2" 3).2.2
      (by decide)⟩

/-- C7: displayMode() is DRM whenever the display section or its mode key
is absent, and is WAYLAND exactly when the mode key is explicitly set to
the Wayland value. -/
theorem displayMode_defaults_to_DRM (doc : Document) :
    (doc.displayModeKey = none →
      (Config.ofDoc doc).displayMode = DisplayMode.DRM)
  ∧ ((Config.ofDoc doc).displayMode = DisplayMode.WAYLAND ↔
      doc.displayModeKey = some cWaylandModeValue) := by
  constructor
  · intro h
    simp [Config.ofDoc, Config.displayMode, readDisplayMode, h]
  · cases h : doc.displayModeKey with
    | none => simp [Config.ofDoc, Config.displayMode, readDisplayMode, h]
    | some m =>
      by_cases hm : m = cWaylandModeValue <;>
        simp [Config.ofDoc, Config.displayMode, readDisplayMode, h, hm]

/-- Witness for C7: the empty document resolves to DRM; the sample
document, whose mode key is the Wayland value, resolves to WAYLAND. -/
theorem displayMode_defaults_to_DRM_witness :
    (Config.ofDoc emptyDoc).displayMode = DisplayMode.DRM
  ∧ (Config.ofDoc sampleDoc).displayMode = DisplayMode.WAYLAND :=
  ⟨(displayMode_defaults_to_DRM emptyDoc).1 rfl,
   (displayMode_defaults_to_DRM sampleDoc).2.mpr rfl⟩

/-- C2: each indexed accessor over a loaded document returns the fields of
the entry at position idx in document order for every idx inside
[0, count), and fails with an IndexError-class ConfigException, neither
clamping nor returning defaults, for every idx outside that range. -/
theorem indexed_accessors_in_range_or_index_error (c : Config) (idx : Int) :
    (∀ h : 0 ≤ idx ∧ idx.toNat < c.connectorList.length,
        c.wlConnector idx =
          Except.ok (c.connectorList.get ⟨idx.toNat, h.2⟩).name)
  ∧ (¬ (0 ≤ idx ∧ idx.toNat < c.connectorList.length) →
        c.wlConnector idx = Except.error (ConfigException.mk cIndexErrorMsg))
  ∧ (∀ h : 0 ≤ idx ∧ idx.toNat < c.keyboardList.length,
        c.inputKeyboard idx =
          Except.ok ((c.keyboardList.get ⟨idx.toNat, h.2⟩).id,
                     (c.keyboardList.get ⟨idx.toNat, h.2⟩).wayland,
                     (c.keyboardList.get ⟨idx.toNat, h.2⟩).name))
  ∧ (¬ (0 ≤ idx ∧ idx.toNat < c.keyboardList.length) →
        c.inputKeyboard idx = Except.error (ConfigException.mk cIndexErrorMsg))
  ∧ (∀ h : 0 ≤ idx ∧ idx.toNat < c.pointerList.length,
        c.inputPointer idx =
          Except.ok ((c.pointerList.get ⟨idx.toNat, h.2⟩).id,
                     (c.pointerList.get ⟨idx.toNat, h.2⟩).wayland,
                     (c.pointerList.get ⟨idx.toNat, h.2⟩).name))
  ∧ (¬ (0 ≤ idx ∧ idx.toNat < c.pointerList.length) →
        c.inputPointer idx = Except.error (ConfigException.mk cIndexErrorMsg))
  ∧ (∀ h : 0 ≤ idx ∧ idx.toNat < c.touchList.length,
        c.inputTouch idx =
          Except.ok ((c.touchList.get ⟨idx.toNat, h.2⟩).id,
                     (c.touchList.get ⟨idx.toNat, h.2⟩).wayland,
                     (c.touchList.get ⟨idx.toNat, h.2⟩).name))
  ∧ (¬ (0 ≤ idx ∧ idx.toNat < c.touchList.length) →
        c.inputTouch idx = Except.error (ConfigException.mk cIndexErrorMsg)) := by
  exact ⟨fun h => dif_pos h, fun h => dif_neg h,
         fun h => dif_pos h, fun h => dif_neg h,
         fun h => dif_pos h, fun h => dif_neg h,
         fun h => dif_pos h, fun h => dif_neg h⟩

/-- Witness for C2 on the sample document: index 0 of the connector list is
returned, index 5 and index -1 fail with the IndexError-class exception,
and index 0 of the keyboards section yields its fields. -/
theorem indexed_accessors_witness :
    (Config.ofDoc sampleDoc).wlConnector 0 = Except.ok "conn0"
  ∧ (Config.ofDoc sampleDoc).wlConnector 5 =
      Except.error (ConfigException.mk cIndexErrorMsg)
  ∧ (Config.ofDoc sampleDoc).wlConnector (-1) =
      Except.error (ConfigException.mk cIndexErrorMsg)
  ∧ (Config.ofDoc sampleDoc).inputKeyboard 0 = Except.ok (0, true, "conn0") :=
  ⟨(indexed_accessors_in_range_or_index_error (Config.ofDoc sampleDoc) 0).1
      (by decide),
   (indexed_accessors_in_range_or_index_error (Config.ofDoc sampleDoc) 5).2.1
      (by decide),
   (indexed_accessors_in_range_or_index_error (Config.ofDoc sampleDoc) (-1)).2.1
      (by decide),
   (indexed_accessors_in_range_or_index_error (Config.ofDoc sampleDoc) 0).2.2.1
      (by decide)⟩

/-- C5: for every offset rule, domConnectorName computes the base connector
index as the offset determined by devId plus idx, so a guest's monitors
occupy consecutive slots starting at that offset, returns the name of the
connector at that index of the global connector list, and fails with the
NotFoundError-class ConfigException whenever the computed index is outside
the configured connector count. -/
theorem domConnectorName_consecutive_slots (c : Config) (offset : Nat → Nat)
    (domName : String) (devId : Nat) (idx : Int) :
    (∀ h : 0 ≤ (offset devId : Int) + idx ∧
             ((offset devId : Int) + idx).toNat < c.connectorList.length,
        c.domConnectorName offset domName devId idx =
          Except.ok
            (c.connectorList.get ⟨((offset devId : Int) + idx).toNat, h.2⟩).name)
  ∧ (¬ (0 ≤ (offset devId : Int) + idx ∧
          ((offset devId : Int) + idx).toNat < c.connectorList.length) →
        c.domConnectorName offset domName devId idx =
          Except.error (ConfigException.mk cNotFoundErrorMsg)) := by
  refine ⟨?_, ?_⟩ <;> intro h <;>
    simp [Config.domConnectorName, h]

/-- Witness for C5 on the sample document with the identity offset rule:
device 1 monitor 0 maps to base index 1, connector conn1; device 1
monitor 1 maps to base index 2, beyond the two configured connectors, and
fails with the NotFoundError-class exception. -/
theorem domConnectorName_witness :
    (Config.ofDoc sampleDoc).domConnectorName (fun d => d) "vm1" 1 0 =
      Except.ok "conn1"
  ∧ (Config.ofDoc sampleDoc).domConnectorName (fun d => d) "vm1" 1 1 =
      Except.error (ConfigException.mk cNotFoundErrorMsg) :=
  ⟨(domConnectorName_consecutive_slots (Config.ofDoc sampleDoc)
      (fun d => d) "vm1" 1 0).1 (by decide),
   (domConnectorName_consecutive_slots (Config.ofDoc sampleDoc)
      (fun d => d) "vm1" 1 1).2 (by decide)⟩

/-- C6: when loading or parsing the settings document fails, or a required
value has the wrong type, construction fails with a ConfigException whose
message carries the human-readable failure text, and no Config value is
produced, so no accessor is callable; on success the display mode and the
four counts are computed eagerly at construction from the document. -/
theorem config_load_fails_or_initializes_eagerly :
    (∀ msg : String, Config.load (Except.error msg) =
        Except.error (ConfigException.mk ("Config: " ++ msg)))
  ∧ (∀ msg : String,
        (ConfigException.mk ("Config: " ++ msg)).what = "Config: " ++ msg)
  ∧ (∀ doc : Document,
        Config.load (Except.ok doc) = Except.ok (Config.ofDoc doc)
      ∧ (Config.ofDoc doc).mDisplayMode = readDisplayMode doc
      ∧ (Config.ofDoc doc).mWlConnectorsCount = readInputsCount doc.connectors
      ∧ (Config.ofDoc doc).mInputKeyboardsCount = readInputsCount doc.keyboards
      ∧ (Config.ofDoc doc).mInputPointersCount = readInputsCount doc.pointers
      ∧ (Config.ofDoc doc).mInputTouchesCount = readInputsCount doc.touches) :=
  ⟨fun msg => rfl, fun msg => rfl,
   fun doc => ⟨rfl, rfl, rfl, rfl, rfl, rfl⟩⟩

/-- Modelled from the spec: an accessor call as a state transformer over
the store; every accessor is read-only and returns the store unchanged
(spec sections 3 and 5). displayMode() call. -/
def Config.displayModeRun (c : Config) : DisplayMode × Config :=
  (c.displayMode, c)

/-- Modelled from the spec: wlConnectorsCount() call as a state
transformer. -/
def Config.wlConnectorsCountRun (c : Config) : Nat × Config :=
  (c.wlConnectorsCount, c)

/-- Modelled from the spec: inputKeyboardsCount() call as a state
transformer. -/
def Config.inputKeyboardsCountRun (c : Config) : Nat × Config :=
  (c.inputKeyboardsCount, c)

/-- Modelled from the spec: inputPointersCount() call as a state
transformer. -/
def Config.inputPointersCountRun (c : Config) : Nat × Config :=
  (c.inputPointersCount, c)

/-- Modelled from the spec: inputTouchesCount() call as a state
transformer. -/
def Config.inputTouchesCountRun (c : Config) : Nat × Config :=
  (c.inputTouchesCount, c)

/-- Modelled from the spec: wlConnector() call as a state transformer. -/
def Config.wlConnectorRun (c : Config) (idx : Int) :
    Except ConfigException String × Config :=
  (c.wlConnector idx, c)

/-- Modelled from the spec: inputKeyboard() call as a state transformer. -/
def Config.inputKeyboardRun (c : Config) (idx : Int) :
    Except ConfigException (Int × Bool × String) × Config :=
  (c.inputKeyboard idx, c)

/-- Modelled from the spec: inputPointer() call as a state transformer. -/
def Config.inputPointerRun (c : Config) (idx : Int) :
    Except ConfigException (Int × Bool × String) × Config :=
  (c.inputPointer idx, c)

/-- Modelled from the spec: inputTouch() call as a state transformer. -/
def Config.inputTouchRun (c : Config) (idx : Int) :
    Except ConfigException (Int × Bool × String) × Config :=
  (c.inputTouch idx, c)

/-- Modelled from the spec: domConnectorName() call as a state
transformer. -/
def Config.domConnectorNameRun (c : Config) (offset : Nat → Nat)
    (domName : String) (devId : Nat) (idx : Int) :
    Except ConfigException String × Config :=
  (c.domConnectorName offset domName devId idx, c)

/-- Modelled from the spec: domKeyboardId() call as a state transformer. -/
def Config.domKeyboardIdRun (c : Config) (domName : String) (devId : Nat) :
    Option Int × Config :=
  (c.domKeyboardId domName devId, c)

/-- Modelled from the spec: domPointerId() call as a state transformer. -/
def Config.domPointerIdRun (c : Config) (domName : String) (devId : Nat) :
    Option Int × Config :=
  (c.domPointerId domName devId, c)

/-- Modelled from the spec: domTouchId() call as a state transformer. -/
def Config.domTouchIdRun (c : Config) (domName : String) (devId : Nat) :
    Option Int × Config :=
  (c.domTouchId domName devId, c)

/-- C8: constructing two stores from the same well-formed document yields
identical cached scalars and identical results, including identical
success, failure and not-found outcomes, for every indexed accessor and
every domain-resolution query: construction and resolution are
deterministic in the input document alone. -/
theorem config_load_deterministic (doc : Document) (c1 c2 : Config)
    (h1 : Config.load (Except.ok doc) = Except.ok c1)
    (h2 : Config.load (Except.ok doc) = Except.ok c2) :
    c1 = c2
  ∧ c1.displayMode = c2.displayMode
  ∧ c1.wlConnectorsCount = c2.wlConnectorsCount
  ∧ c1.inputKeyboardsCount = c2.inputKeyboardsCount
  ∧ c1.inputPointersCount = c2.inputPointersCount
  ∧ c1.inputTouchesCount = c2.inputTouchesCount
  ∧ (∀ idx, c1.wlConnector idx = c2.wlConnector idx)
  ∧ (∀ idx, c1.inputKeyboard idx = c2.inputKeyboard idx)
  ∧ (∀ idx, c1.inputPointer idx = c2.inputPointer idx)
  ∧ (∀ idx, c1.inputTouch idx = c2.inputTouch idx)
  ∧ (∀ offset domName devId idx,
        c1.domConnectorName offset domName devId idx =
          c2.domConnectorName offset domName devId idx)
  ∧ (∀ domName devId, c1.domKeyboardId domName devId = c2.domKeyboardId domName devId)
  ∧ (∀ domName devId, c1.domPointerId domName devId = c2.domPointerId domName devId)
  ∧ (∀ domName devId, c1.domTouchId domName devId = c2.domTouchId domName devId) := by
  have e1 : c1 = Config.ofDoc doc := by
    have := h1
    simp only [Config.load, Except.ok.injEq] at this
    exact this.symm
  have e2 : c2 = Config.ofDoc doc := by
    have := h2
    simp only [Config.load, Except.ok.injEq] at this
    exact this.symm
  subst e1; subst e2
  exact ⟨rfl, rfl, rfl, rfl, rfl, rfl, fun _ => rfl, fun _ => rfl,
         fun _ => rfl, fun _ => rfl, fun _ _ _ _ => rfl,
         fun _ _ => rfl, fun _ _ => rfl, fun _ _ => rfl⟩

/-- Witness for C8: two loads of the sample document produce equal
stores. -/
theorem config_load_deterministic_witness :
    Config.ofDoc sampleDoc = Config.ofDoc sampleDoc :=
  (config_load_deterministic sampleDoc
    (Config.ofDoc sampleDoc) (Config.ofDoc sampleDoc) rfl rfl).1

/-- C9: every accessor and resolution call, run as a state transformer over
the store, leaves the entire store state unchanged: the loaded document,
the cached display mode and the four cached counts; no operation mutates
any field, so any interleaving of read calls observes the values computed
at construction. -/
theorem accessors_leave_state_unchanged (c : Config) (idx : Int)
    (offset : Nat → Nat) (domName : String) (devId : Nat) :
    (c.displayModeRun).2 = c
  ∧ (c.wlConnectorsCountRun).2 = c
  ∧ (c.inputKeyboardsCountRun).2 = c
  ∧ (c.inputPointersCountRun).2 = c
  ∧ (c.inputTouchesCountRun).2 = c
  ∧ (c.wlConnectorRun idx).2 = c
  ∧ (c.inputKeyboardRun idx).2 = c
  ∧ (c.inputPointerRun idx).2 = c
  ∧ (c.inputTouchRun idx).2 = c
  ∧ (c.domConnectorNameRun offset domName devId idx).2 = c
  ∧ (c.domKeyboardIdRun domName devId).2 = c
  ∧ (c.domPointerIdRun domName devId).2 = c
  ∧ (c.domTouchIdRun domName devId).2 = c
  ∧ (c.wlConnectorRun idx).2.mConfig = c.mConfig
  ∧ (c.wlConnectorRun idx).2.mDisplayMode = c.mDisplayMode
  ∧ (c.wlConnectorRun idx).2.mWlConnectorsCount = c.mWlConnectorsCount
  ∧ (c.wlConnectorRun idx).2.mInputKeyboardsCount = c.mInputKeyboardsCount
  ∧ (c.wlConnectorRun idx).2.mInputPointersCount = c.mInputPointersCount
  ∧ (c.wlConnectorRun idx).2.mInputTouchesCount = c.mInputTouchesCount :=
  ⟨rfl, rfl, rfl, rfl, rfl, rfl, rfl, rfl, rfl, rfl, rfl, rfl, rfl,
   rfl, rfl, rfl, rfl, rfl, rfl⟩

/-- C10: every failure of the component is reported through the single
exception type ConfigException, whose what() returns exactly the message
supplied at construction; the type carries nothing but that message, so no
distinct IndexError or NotFoundError type exists at the public interface
and callers cannot distinguish error classes by exception type. -/
theorem single_exception_type_with_message (msg : String)
    (e : ConfigException) (c : Config) (idx : Int) (offset : Nat → Nat)
    (domName : String) (devId : Nat) (parsed : Except String Document) :
    (ConfigException.mk msg).what = msg
  ∧ e = ConfigException.mk e.what
  ∧ ((∃ s, c.wlConnector idx = Except.ok s)
      ∨ c.wlConnector idx = Except.error (ConfigException.mk cIndexErrorMsg))
  ∧ ((∃ r, c.inputKeyboard idx = Except.ok r)
      ∨ c.inputKeyboard idx = Except.error (ConfigException.mk cIndexErrorMsg))
  ∧ ((∃ r, c.inputPointer idx = Except.ok r)
      ∨ c.inputPointer idx = Except.error (ConfigException.mk cIndexErrorMsg))
  ∧ ((∃ r, c.inputTouch idx = Except.ok r)
      ∨ c.inputTouch idx = Except.error (ConfigException.mk cIndexErrorMsg))
  ∧ ((∃ s, c.domConnectorName offset domName devId idx = Except.ok s)
      ∨ c.domConnectorName offset domName devId idx =
          Except.error (ConfigException.mk cNotFoundErrorMsg))
  ∧ ((∃ cfg, Config.load parsed = Except.ok cfg)
      ∨ (∃ m, Config.load parsed =
            Except.error (ConfigException.mk ("Config: " ++ m)))) := by
  refine ⟨rfl, rfl, ?_, ?_, ?_, ?_, ?_, ?_⟩
  · by_cases h : 0 ≤ idx ∧ idx.toNat < c.connectorList.length
    · exact Or.inl ⟨_, dif_pos h⟩
    · exact Or.inr (dif_neg h)
  · by_cases h : 0 ≤ idx ∧ idx.toNat < (c.mConfig.keyboards.getD []).length
    · exact Or.inl ⟨_, dif_pos h⟩
    · exact Or.inr (dif_neg h)
  · by_cases h : 0 ≤ idx ∧ idx.toNat < (c.mConfig.pointers.getD []).length
    · exact Or.inl ⟨_, dif_pos h⟩
    · exact Or.inr (dif_neg h)
  · by_cases h : 0 ≤ idx ∧ idx.toNat < (c.mConfig.touches.getD []).length
    · exact Or.inl ⟨_, dif_pos h⟩
    · exact Or.inr (dif_neg h)
  · by_cases h : 0 ≤ (offset devId : Int) + idx ∧
        ((offset devId : Int) + idx).toNat < c.connectorList.length
    · exact Or.inl ⟨_, dif_pos h⟩
    · exact Or.inr (dif_neg h)
  · cases parsed with
    | error m => exact Or.inr ⟨m, rfl⟩
    | ok doc => exact Or.inl ⟨Config.ofDoc doc, rfl⟩
